import Mathlib

/-!
Shallow embedding of the stake-pool rebalance bot planner from
stake-pool/py/bot/rebalance.py (solana-program-library).

The planning core of the Python coroutine `rebalance` is a pure function of
the data it reads: the pool's `total_lamports`, the caller-supplied retained
reserve (already converted to lamports), the chain's stake-account rent
exemption, and the validator list with per-validator active/transient
balances.  Python integers are modelled as Nat (the decoded fields are
unsigned 64-bit) and Int where subtraction appears; Python floor division
`//` is `Int.fdiv`; the unguarded division by `num_validators` raises
`ZeroDivisionError` when the validator list is empty, modelled by returning
`none`.
-/

/-- Constant LAMPORTS_PER_SOL from rebalance.py. -/
def LAMPORTS_PER_SOL : Int := 1000000000

/-- Constant MINIMUM_INCREASE_LAMPORTS = LAMPORTS_PER_SOL // 100 from
rebalance.py (Python floor division). -/
def MINIMUM_INCREASE_LAMPORTS : Int := Int.fdiv LAMPORTS_PER_SOL 100

/-- One entry of the decoded ValidatorList (stake_pool/state.py,
class ValidatorInfo): the fields the rebalance bot reads.  All three are
decoded as unsigned 64-bit integers (Int64ul); the vote account address is an
opaque identifier. -/
structure ValidatorInfo where
  active_stake_lamports : Nat
  transient_stake_lamports : Nat
  vote_account_address : Nat
deriving DecidableEq

/-- The data one planning pass of `rebalance` reads from the chain:
stake_pool.total_lamports, the retained reserve converted to lamports,
the rent-exemption minimum for a stake account, and the validator list. -/
structure PoolSnapshot where
  total_lamports : Nat
  retained_reserve_lamports : Nat
  stake_rent_exemption : Nat
  validators : List ValidatorInfo
deriving DecidableEq

/-- A planned stake movement: the bot either calls increase_validator_stake
or decrease_validator_stake for one validator with a lamport amount. -/
inductive RebalanceAction where
  | increase (vote_account_address : Nat) (lamports : Int)
  | decrease (vote_account_address : Nat) (lamports : Int)
deriving DecidableEq

/-- Value of stake_pool.total_lamports - retained_reserve_lamports, the
subtraction appearing in line 63 of rebalance.py (may be negative). -/
def usable_total (s : PoolSnapshot) : Int :=
  (s.total_lamports : Int) - (s.retained_reserve_lamports : Int)

/-- First assignment of lamports_per_validator (rebalance.py line 63):
(total_lamports - retained_reserve_lamports) // num_validators, with
Python floor division. -/
def provisional_lamports_per_validator (s : PoolSnapshot) : Int :=
  Int.fdiv (usable_total s) (s.validators.length : Int)

/-- Condition of the list comprehension computing num_increases
(rebalance.py lines 64-67): transient_stake_lamports == 0 and
active_stake_lamports < lamports_per_validator (the provisional one). -/
def wants_increase (t0 : Int) (v : ValidatorInfo) : Bool :=
  v.transient_stake_lamports == 0 && decide ((v.active_stake_lamports : Int) < t0)

/-- num_increases (rebalance.py lines 64-67): how many validators pass the
comprehension's condition against the provisional target. -/
def num_increases (s : PoolSnapshot) : Nat :=
  s.validators.countP (wants_increase (provisional_lamports_per_validator s))

/-- total_usable_lamports (rebalance.py line 68). -/
def total_usable_lamports (s : PoolSnapshot) : Int :=
  usable_total s - (num_increases s : Int) * (s.stake_rent_exemption : Int)

/-- Second, corrected assignment of lamports_per_validator
(rebalance.py line 69): total_usable_lamports // num_validators. -/
def lamports_per_validator (s : PoolSnapshot) : Int :=
  Int.fdiv (total_usable_lamports s) (s.validators.length : Int)

/-- Per-validator branch of the loop in rebalance.py lines 73-100.  With
target the corrected lamports_per_validator and rent the stake rent
exemption, the loop body either skips the validator (busy transient stake,
within-threshold deviation, or exactly at target) or schedules one action:
a decrease of active - target when active > target and the delta exceeds
the rent exemption, an increase of target - active when active < target
and the delta is at least MINIMUM_INCREASE_LAMPORTS. -/
def planValidator (target rent : Int) (v : ValidatorInfo) : Option RebalanceAction :=
  if v.transient_stake_lamports ≠ 0 then
    none
  else if target < (v.active_stake_lamports : Int) then
    if (v.active_stake_lamports : Int) - target ≤ rent then
      none
    else
      some (RebalanceAction.decrease v.vote_account_address
        ((v.active_stake_lamports : Int) - target))
  else if (v.active_stake_lamports : Int) < target then
    if target - (v.active_stake_lamports : Int) < MINIMUM_INCREASE_LAMPORTS then
      none
    else
      some (RebalanceAction.increase v.vote_account_address
        (target - (v.active_stake_lamports : Int)))
  else
    none

/-- The planning core of `rebalance` (rebalance.py lines 63-100) as a pure
function from the snapshot to the list of scheduled actions, in validator
list order.  When the validator list is empty the Python code raises
ZeroDivisionError at line 63 (there is no special case), modelled as
`none`. -/
def rebalance (s : PoolSnapshot) : Option (List RebalanceAction) :=
  if s.validators.length = 0 then
    none
  else
    some (s.validators.filterMap
      (planValidator (lamports_per_validator s) (s.stake_rent_exemption : Int)))

/-- Sum of the lamports of the increase actions of a plan. -/
def sum_increase_lamports : List RebalanceAction → Int
  | [] => 0
  | RebalanceAction.increase _ x :: rest => x + sum_increase_lamports rest
  | RebalanceAction.decrease _ _ :: rest => sum_increase_lamports rest

/-- Sum of the lamports of the decrease actions of a plan. -/
def sum_decrease_lamports : List RebalanceAction → Int
  | [] => 0
  | RebalanceAction.increase _ _ :: rest => sum_decrease_lamports rest
  | RebalanceAction.decrease _ x :: rest => x + sum_decrease_lamports rest

/-- Number of increase actions of a plan. -/
def count_increases : List RebalanceAction → Nat
  | [] => 0
  | RebalanceAction.increase _ _ :: rest => count_increases rest + 1
  | RebalanceAction.decrease _ _ :: rest => count_increases rest

/-- Snapshot refuting claim C1 as stated: retained reserve larger than the
pool total, one busy validator and one movable validator holding nothing. -/
def cexConservation : PoolSnapshot :=
  { total_lamports := 0
    retained_reserve_lamports := 100
    stake_rent_exemption := 5
    validators := [
      { active_stake_lamports := 0, transient_stake_lamports := 1, vote_account_address := 1 },
      { active_stake_lamports := 0, transient_stake_lamports := 0, vote_account_address := 2 }] }

/-- Snapshot for the conservation witness: reserve within the total, one
overfunded and one empty validator. -/
def witConservation : PoolSnapshot :=
  { total_lamports := 300
    retained_reserve_lamports := 100
    stake_rent_exemption := 5
    validators := [
      { active_stake_lamports := 200, transient_stake_lamports := 0, vote_account_address := 1 },
      { active_stake_lamports := 0, transient_stake_lamports := 0, vote_account_address := 2 }] }

/-- Snapshot for the two-pass target witness. -/
def witTwoPass : PoolSnapshot :=
  { total_lamports := 300
    retained_reserve_lamports := 0
    stake_rent_exemption := 5
    validators := [
      { active_stake_lamports := 200, transient_stake_lamports := 0, vote_account_address := 1 },
      { active_stake_lamports := 0, transient_stake_lamports := 0, vote_account_address := 2 }] }

/-- Snapshot with an empty validator list, the failing input of claim C3. -/
def emptyValidatorSnapshot : PoolSnapshot :=
  { total_lamports := 100
    retained_reserve_lamports := 0
    stake_rent_exemption := 5
    validators := [] }

/-- Snapshot refuting claim C4 as stated: reserve 200 above the total 100,
with one movable validator that triggers a decrease. -/
def cexConfigInvalid : PoolSnapshot :=
  { total_lamports := 100
    retained_reserve_lamports := 200
    stake_rent_exemption := 50
    validators := [
      { active_stake_lamports := 100, transient_stake_lamports := 0, vote_account_address := 1 }] }

/-- Snapshot for the amended claim C4 witness. -/
def witConfigInvalid : PoolSnapshot :=
  { total_lamports := 100
    retained_reserve_lamports := 300
    stake_rent_exemption := 5
    validators := [
      { active_stake_lamports := 0, transient_stake_lamports := 0, vote_account_address := 1 }] }

/-- Snapshot for the busy-skip witness: validator 42 is busy (7 transient
lamports), validator 1 is movable and receives an increase. -/
def witBusy : PoolSnapshot :=
  { total_lamports := 40000000
    retained_reserve_lamports := 0
    stake_rent_exemption := 5
    validators := [
      { active_stake_lamports := 0, transient_stake_lamports := 7, vote_account_address := 42 },
      { active_stake_lamports := 0, transient_stake_lamports := 0, vote_account_address := 1 }] }

/-- Snapshot for the dust-suppression witness: its plan holds one increase
and one decrease. -/
def witDust : PoolSnapshot :=
  { total_lamports := 40000000
    retained_reserve_lamports := 0
    stake_rent_exemption := 5
    validators := [
      { active_stake_lamports := 0, transient_stake_lamports := 0, vote_account_address := 1 },
      { active_stake_lamports := 40000000, transient_stake_lamports := 0, vote_account_address := 2 }] }

/-- Snapshot for the convergence no-op witness: both validators already sit
exactly at the provisional target 50. -/
def witConvergence : PoolSnapshot :=
  { total_lamports := 100
    retained_reserve_lamports := 0
    stake_rent_exemption := 7
    validators := [
      { active_stake_lamports := 50, transient_stake_lamports := 0, vote_account_address := 1 },
      { active_stake_lamports := 50, transient_stake_lamports := 0, vote_account_address := 2 }] }

/-- Scenario A of the specification: three empty validators, pool total
300_000_000 lamports, rent exemption 2_282_880 lamports, no retained
reserve. -/
def scenarioA : PoolSnapshot :=
  { total_lamports := 300000000
    retained_reserve_lamports := 0
    stake_rent_exemption := 2282880
    validators := [
      { active_stake_lamports := 0, transient_stake_lamports := 0, vote_account_address := 1 },
      { active_stake_lamports := 0, transient_stake_lamports := 0, vote_account_address := 2 },
      { active_stake_lamports := 0, transient_stake_lamports := 0, vote_account_address := 3 }] }

/-- Snapshot for the correction-monotonicity witness. -/
def witMonotonicity : PoolSnapshot :=
  { total_lamports := 1000
    retained_reserve_lamports := 10
    stake_rent_exemption := 3
    validators := [
      { active_stake_lamports := 7, transient_stake_lamports := 0, vote_account_address := 1 },
      { active_stake_lamports := 900, transient_stake_lamports := 0, vote_account_address := 2 }] }

/-- Snapshot for the positive-amounts witness. -/
def witPositive : PoolSnapshot :=
  { total_lamports := 40000000
    retained_reserve_lamports := 0
    stake_rent_exemption := 5
    validators := [
      { active_stake_lamports := 0, transient_stake_lamports := 0, vote_account_address := 1 },
      { active_stake_lamports := 40000000, transient_stake_lamports := 0, vote_account_address := 2 }] }

lemma minimum_increase_eq : MINIMUM_INCREASE_LAMPORTS = 10000000 := by decide

/-- Exact characterization of the loop body: which validators give rise to
which action. -/
lemma planValidator_eq_some {t rent : Int} {v : ValidatorInfo} {a : RebalanceAction} :
    planValidator t rent v = some a ↔
      v.transient_stake_lamports = 0 ∧
      ((t < (v.active_stake_lamports : Int) ∧
          rent < (v.active_stake_lamports : Int) - t ∧
          a = RebalanceAction.decrease v.vote_account_address
            ((v.active_stake_lamports : Int) - t)) ∨
       ((v.active_stake_lamports : Int) < t ∧
          MINIMUM_INCREASE_LAMPORTS ≤ t - (v.active_stake_lamports : Int) ∧
          a = RebalanceAction.increase v.vote_account_address
            (t - (v.active_stake_lamports : Int)))) := by
  by_cases h1 : v.transient_stake_lamports ≠ 0
  · simp [planValidator, h1]
  · have htr : v.transient_stake_lamports = 0 := not_not.mp h1
    by_cases h2 : t < (v.active_stake_lamports : Int)
    · by_cases h3 : (v.active_stake_lamports : Int) - t ≤ rent
      · simp only [planValidator, if_neg h1, if_pos h2, if_pos h3]
        constructor
        · intro h; simp at h
        · rintro ⟨-, (⟨hlt, hrent, ha⟩ | ⟨hlt, hmin, ha⟩)⟩ <;> omega
      · simp only [planValidator, if_neg h1, if_pos h2, if_neg h3]
        constructor
        · intro h
          injection h with h
          exact ⟨htr, Or.inl ⟨h2, by omega, h.symm⟩⟩
        · rintro ⟨-, (⟨hlt, hrent, ha⟩ | ⟨hlt, hmin, ha⟩)⟩
          · rw [ha]
          · omega
    · by_cases h4 : (v.active_stake_lamports : Int) < t
      · by_cases h5 : t - (v.active_stake_lamports : Int) < MINIMUM_INCREASE_LAMPORTS
        · simp only [planValidator, if_neg h1, if_neg h2, if_pos h4, if_pos h5]
          constructor
          · intro h; simp at h
          · rintro ⟨-, (⟨hlt, hrent, ha⟩ | ⟨hlt, hmin, ha⟩)⟩ <;> omega
        · simp only [planValidator, if_neg h1, if_neg h2, if_pos h4, if_neg h5]
          constructor
          · intro h
            injection h with h
            exact ⟨htr, Or.inr ⟨h4, by omega, h.symm⟩⟩
          · rintro ⟨-, (⟨hlt, hrent, ha⟩ | ⟨hlt, hmin, ha⟩)⟩
            · omega
            · rw [ha]
      · simp only [planValidator, if_neg h1, if_neg h2, if_neg h4]
        constructor
        · intro h; simp at h
        · rintro ⟨-, (⟨hlt, hrent, ha⟩ | ⟨hlt, hmin, ha⟩)⟩ <;> omega

/-- Each emitted increase moves at most the target (active balances are
unsigned), so the increases of a plan sum to at most count times target. -/
lemma sum_increase_le_count_mul (t rent : Int) (l : List ValidatorInfo) :
    sum_increase_lamports (l.filterMap (planValidator t rent)) ≤
      (count_increases (l.filterMap (planValidator t rent)) : Int) * t := by
  induction l with
  | nil => simp [sum_increase_lamports, count_increases]
  | cons v rest ih =>
    rw [List.filterMap_cons]
    cases hpv : planValidator t rent v with
    | none => simpa using ih
    | some a =>
      rcases planValidator_eq_some.mp hpv with ⟨htr, ⟨h1, h2, ha⟩ | ⟨h1, h2, ha⟩⟩
      · subst ha
        simpa [sum_increase_lamports, count_increases] using ih
      · subst ha
        simp only [List.filterMap_cons_some hpv]
        simp only [sum_increase_lamports, count_increases]
        have hv : (0:Int) ≤ (v.active_stake_lamports : Int) := Int.ofNat_nonneg _
        push_cast
        nlinarith [ih]

/-- Every emitted increase comes from a validator counted by the
correction pass, whenever the corrected target is at most the provisional
one. -/
lemma count_increases_le_countP (t t0 rent : Int) (hle : t ≤ t0) (l : List ValidatorInfo) :
    count_increases (l.filterMap (planValidator t rent)) ≤ l.countP (wants_increase t0) := by
  induction l with
  | nil => simp [count_increases]
  | cons v rest ih =>
    rw [List.filterMap_cons, List.countP_cons]
    cases hpv : planValidator t rent v with
    | none => exact le_trans ih (Nat.le_add_right _ _)
    | some a =>
      rcases planValidator_eq_some.mp hpv with ⟨htr, ⟨h1, h2, ha⟩ | ⟨h1, h2, ha⟩⟩
      · subst ha
        simp only [count_increases]
        exact le_trans ih (Nat.le_add_right _ _)
      · subst ha
        have hw : wants_increase t0 v = true := by
          simp [wants_increase, htr]
          omega
        simp only [count_increases, hw, if_true]
        omega

/-- Every emitted decrease strictly exceeds the rent exemption, so the
decreases of a plan have a nonnegative sum. -/
lemma sum_decrease_nonneg (t rent : Int) (_hrent : 0 ≤ rent) (l : List ValidatorInfo) :
    0 ≤ sum_decrease_lamports (l.filterMap (planValidator t rent)) := by
  induction l with
  | nil => simp [sum_decrease_lamports]
  | cons v rest ih =>
    rw [List.filterMap_cons]
    cases hpv : planValidator t rent v with
    | none => simpa using ih
    | some a =>
      rcases planValidator_eq_some.mp hpv with ⟨htr, ⟨h1, h2, ha⟩ | ⟨h1, h2, ha⟩⟩
      · subst ha
        simp only [sum_decrease_lamports]
        linarith
      · subst ha
        simpa [sum_decrease_lamports] using ih

/-- A negative target can never trigger an increase: active balances are
unsigned, so the comparison active < target fails. -/
lemma count_increases_eq_zero_of_neg (t rent : Int) (ht : t < 0) (l : List ValidatorInfo) :
    count_increases (l.filterMap (planValidator t rent)) = 0 ∧
      sum_increase_lamports (l.filterMap (planValidator t rent)) = 0 := by
  induction l with
  | nil => simp [count_increases, sum_increase_lamports]
  | cons v rest ih =>
    rw [List.filterMap_cons]
    cases hpv : planValidator t rent v with
    | none => simpa using ih
    | some a =>
      rcases planValidator_eq_some.mp hpv with ⟨htr, ⟨h1, h2, ha⟩ | ⟨h1, h2, ha⟩⟩
      · subst ha
        simpa [count_increases, sum_increase_lamports] using ih
      · exfalso
        have hv : (0:Int) ≤ (v.active_stake_lamports : Int) := Int.ofNat_nonneg _
        omega

/-- Arithmetic core of the conservation argument. -/
lemma key_arith (n k m t rent u : Int) (hn : 0 < n) (hm0 : 0 ≤ m) (hmk : m ≤ k)
    (hkn : k ≤ n) (hrent : 0 ≤ rent) (hu : 0 ≤ u) (hnt : n * t ≤ u - k * rent)
    (hkr : k * rent ≤ u) : m * t + m * rent ≤ u := by
  have hmr : m * rent ≤ u := le_trans (mul_le_mul_of_nonneg_right hmk hrent) hkr
  have h1 : m * (n * t) ≤ m * (u - k * rent) := mul_le_mul_of_nonneg_left hnt hm0
  have h2 : (n - k) * (m * rent) ≤ (n - k) * u :=
    mul_le_mul_of_nonneg_left hmr (by linarith)
  have h3 : (m + (n - k)) * u ≤ n * u :=
    mul_le_mul_of_nonneg_right (by linarith) hu
  have h4 : n * (m * t + m * rent) ≤ n * u := by nlinarith [h1, h2, h3]
  exact le_of_mul_le_mul_left h4 hn

/-- The corrected target, written with Euclidean division (equal to floor
division here since the validator count is nonnegative). -/
lemma lamports_per_validator_eq_ediv (s : PoolSnapshot) :
    lamports_per_validator s =
      (usable_total s - (num_increases s : Int) * (s.stake_rent_exemption : Int))
        / (s.validators.length : Int) := by
  unfold lamports_per_validator total_usable_lamports
  exact Int.fdiv_eq_ediv _ (Int.ofNat_nonneg _)

/-- The provisional target, written with Euclidean division. -/
lemma provisional_eq_ediv (s : PoolSnapshot) :
    provisional_lamports_per_validator s = usable_total s / (s.validators.length : Int) := by
  unfold provisional_lamports_per_validator
  exact Int.fdiv_eq_ediv _ (Int.ofNat_nonneg _)

/-- The correction pass can only lower the target. -/
lemma target_le_provisional (s : PoolSnapshot) (hn : s.validators.length ≠ 0) :
    lamports_per_validator s ≤ provisional_lamports_per_validator s := by
  rw [lamports_per_validator_eq_ediv, provisional_eq_ediv]
  have hn2 : (0:Int) < (s.validators.length : Int) := by
    exact_mod_cast Nat.pos_of_ne_zero hn
  apply Int.ediv_le_ediv hn2
  have hnn : (0:Int) ≤ (num_increases s : Int) * (s.stake_rent_exemption : Int) :=
    mul_nonneg (Int.ofNat_nonneg _) (Int.ofNat_nonneg _)
  linarith

/-- C1 (counterexample): on cexConservation the plan is a single decrease of
50 lamports, and the claimed bound sum of increases minus sum of decreases
plus emitted-increase count times rent is not at most usable_total: the left
side is -50 while usable_total is -100. -/
theorem conservation_counterexample :
    rebalance cexConservation = some [RebalanceAction.decrease 2 50] ∧
    ¬(sum_increase_lamports [RebalanceAction.decrease 2 50]
        - sum_decrease_lamports [RebalanceAction.decrease 2 50]
        + (count_increases [RebalanceAction.decrease 2 50] : Int)
            * (cexConservation.stake_rent_exemption : Int)
      ≤ (cexConservation.total_lamports : Int)
        - (cexConservation.retained_reserve_lamports : Int)) := by
  decide

/-- C1 (amended): conservation of reserve under the stated bound holds for
every snapshot the planner completes on (nonempty validator list) whose
retained reserve does not exceed the pool total: the emitted increases minus
the emitted decreases plus the number of emitted increases times the stake
rent exemption never exceed usable_total = total_lamports -
retained_reserve_lamports. -/
theorem conservation_of_reserve (s : PoolSnapshot) (p : List RebalanceAction)
    (hp : rebalance s = some p)
    (hres : s.retained_reserve_lamports ≤ s.total_lamports) :
    sum_increase_lamports p - sum_decrease_lamports p
        + (count_increases p : Int) * (s.stake_rent_exemption : Int)
      ≤ (s.total_lamports : Int) - (s.retained_reserve_lamports : Int) := by
  by_cases hn : s.validators.length = 0
  · rw [rebalance, if_pos hn] at hp
    exact absurd hp (by simp)
  · rw [rebalance, if_neg hn, Option.some.injEq] at hp
    subst hp
    have hn2 : (0:Int) < (s.validators.length : Int) := by
      exact_mod_cast Nat.pos_of_ne_zero hn
    have hrent : (0:Int) ≤ (s.stake_rent_exemption : Int) := Int.ofNat_nonneg _
    have hu0 : (0:Int) ≤ usable_total s := by
      unfold usable_total
      omega
    by_cases hneg : total_usable_lamports s < 0
    · have htneg : lamports_per_validator s < 0 := by
        rw [lamports_per_validator_eq_ediv]
        apply Int.ediv_neg' _ hn2
        unfold total_usable_lamports at hneg
        exact hneg
      obtain ⟨hc0, hs0⟩ := count_increases_eq_zero_of_neg (lamports_per_validator s)
        (s.stake_rent_exemption : Int) htneg s.validators
      rw [hc0, hs0]
      have hd := sum_decrease_nonneg (lamports_per_validator s)
        (s.stake_rent_exemption : Int) hrent s.validators
      unfold usable_total at hu0
      push_cast
      linarith
    · push_neg at hneg
      have hnt : (s.validators.length : Int) * lamports_per_validator s
          ≤ total_usable_lamports s := by
        rw [lamports_per_validator_eq_ediv]
        have h := Int.ediv_mul_le
          (usable_total s - (num_increases s : Int) * (s.stake_rent_exemption : Int))
          (ne_of_gt hn2)
        unfold total_usable_lamports
        linarith
      have hmk : count_increases (s.validators.filterMap
            (planValidator (lamports_per_validator s) (s.stake_rent_exemption : Int)))
          ≤ num_increases s :=
        count_increases_le_countP (lamports_per_validator s)
          (provisional_lamports_per_validator s) (s.stake_rent_exemption : Int)
          (target_le_provisional s hn) s.validators
      have hkn : num_increases s ≤ s.validators.length := by
        unfold num_increases
        exact List.countP_le_length _
      have hkr : (num_increases s : Int) * (s.stake_rent_exemption : Int)
          ≤ usable_total s := by
        unfold total_usable_lamports at hneg
        linarith
      have hsum := sum_increase_le_count_mul (lamports_per_validator s)
        (s.stake_rent_exemption : Int) s.validators
      have hd := sum_decrease_nonneg (lamports_per_validator s)
        (s.stake_rent_exemption : Int) hrent s.validators
      have harith := key_arith (s.validators.length : Int) (num_increases s : Int)
        (count_increases (s.validators.filterMap
          (planValidator (lamports_per_validator s) (s.stake_rent_exemption : Int))) : Int)
        (lamports_per_validator s) (s.stake_rent_exemption : Int) (usable_total s)
        hn2 (Int.ofNat_nonneg _) (by exact_mod_cast hmk) (by exact_mod_cast hkn)
        hrent hu0 (by unfold total_usable_lamports at hnt; exact hnt) hkr
      unfold usable_total at harith
      linarith

/-- Witness instantiating conservation_of_reserve on witConservation, whose
plan is a single decrease of 103 lamports. -/
theorem conservation_of_reserve_witness :
    sum_increase_lamports [RebalanceAction.decrease 1 103]
        - sum_decrease_lamports [RebalanceAction.decrease 1 103]
        + (count_increases [RebalanceAction.decrease 1 103] : Int)
            * (witConservation.stake_rent_exemption : Int)
      ≤ (witConservation.total_lamports : Int)
        - (witConservation.retained_reserve_lamports : Int) :=
  conservation_of_reserve witConservation [RebalanceAction.decrease 1 103]
    (by decide) (by decide)

/-- A negative corrected target can never produce an increase action. -/
lemma increase_not_mem_of_neg_target (t rent : Int) (ht : t < 0) (l : List ValidatorInfo)
    (vote : Nat) (x : Int) :
    RebalanceAction.increase vote x ∉ l.filterMap (planValidator t rent) := by
  intro hx
  rcases List.mem_filterMap.mp hx with ⟨v, hv, hpv⟩
  rcases planValidator_eq_some.mp hpv with ⟨htr, ⟨h1, h2, ha⟩ | ⟨h1, h2, ha⟩⟩
  · exact absurd ha (by simp)
  · have hv0 : (0:Int) ≤ (v.active_stake_lamports : Int) := Int.ofNat_nonneg _
    omega

/-- C2 (confirmed): two-pass target correction.  The planner counts
num_increases against the provisional target floor((total - reserve) / n),
deducts num_increases times the stake rent exemption from the usable total,
recomputes the target by one more floor division, and every emitted action's
delta is taken against this corrected target. -/
theorem two_pass_target_correction (s : PoolSnapshot) (hn : s.validators.length ≠ 0) :
    num_increases s = s.validators.countP (fun v =>
        v.transient_stake_lamports == 0 &&
        decide ((v.active_stake_lamports : Int) <
          Int.fdiv ((s.total_lamports : Int) - (s.retained_reserve_lamports : Int))
            (s.validators.length : Int))) ∧
    lamports_per_validator s =
      Int.fdiv ((s.total_lamports : Int) - (s.retained_reserve_lamports : Int)
          - (num_increases s : Int) * (s.stake_rent_exemption : Int))
        (s.validators.length : Int) ∧
    rebalance s = some (s.validators.filterMap
      (planValidator (lamports_per_validator s) (s.stake_rent_exemption : Int))) ∧
    ∀ a ∈ s.validators.filterMap
        (planValidator (lamports_per_validator s) (s.stake_rent_exemption : Int)),
      ∃ v, v ∈ s.validators ∧
        (a = RebalanceAction.decrease v.vote_account_address
            ((v.active_stake_lamports : Int) - lamports_per_validator s) ∨
         a = RebalanceAction.increase v.vote_account_address
            (lamports_per_validator s - (v.active_stake_lamports : Int))) := by
  refine ⟨rfl, rfl, by rw [rebalance, if_neg hn], ?_⟩
  intro a ha
  rcases List.mem_filterMap.mp ha with ⟨v, hv, hpv⟩
  rcases planValidator_eq_some.mp hpv with ⟨htr, ⟨h1, h2, ha2⟩ | ⟨h1, h2, ha2⟩⟩
  · exact ⟨v, hv, Or.inl ha2⟩
  · exact ⟨v, hv, Or.inr ha2⟩

/-- Witness instantiating two_pass_target_correction on witTwoPass. -/
theorem two_pass_target_correction_witness :
    num_increases witTwoPass = witTwoPass.validators.countP (fun v =>
        v.transient_stake_lamports == 0 &&
        decide ((v.active_stake_lamports : Int) <
          Int.fdiv ((witTwoPass.total_lamports : Int)
              - (witTwoPass.retained_reserve_lamports : Int))
            (witTwoPass.validators.length : Int))) ∧
    lamports_per_validator witTwoPass =
      Int.fdiv ((witTwoPass.total_lamports : Int)
          - (witTwoPass.retained_reserve_lamports : Int)
          - (num_increases witTwoPass : Int) * (witTwoPass.stake_rent_exemption : Int))
        (witTwoPass.validators.length : Int) ∧
    rebalance witTwoPass = some (witTwoPass.validators.filterMap
      (planValidator (lamports_per_validator witTwoPass)
        (witTwoPass.stake_rent_exemption : Int))) ∧
    ∀ a ∈ witTwoPass.validators.filterMap
        (planValidator (lamports_per_validator witTwoPass)
          (witTwoPass.stake_rent_exemption : Int)),
      ∃ v, v ∈ witTwoPass.validators ∧
        (a = RebalanceAction.decrease v.vote_account_address
            ((v.active_stake_lamports : Int) - lamports_per_validator witTwoPass) ∨
         a = RebalanceAction.increase v.vote_account_address
            (lamports_per_validator witTwoPass - (v.active_stake_lamports : Int))) :=
  two_pass_target_correction witTwoPass (by decide)

/-- C3 (code_bug evidence): on a snapshot with zero validators the planner
does not return an empty plan: the unguarded floor division at line 63 of
rebalance.py raises ZeroDivisionError, modelled here as none. -/
theorem zero_validator_division_fault :
    rebalance emptyValidatorSnapshot = none ∧
      rebalance emptyValidatorSnapshot ≠ some [] := by
  decide

/-- C4 (counterexample): a snapshot whose retained reserve (200) exceeds the
pool total (100) on which the planner emits a decrease action of 200
lamports, so the returned action set is not empty. -/
theorem config_invalid_counterexample :
    cexConfigInvalid.total_lamports < cexConfigInvalid.retained_reserve_lamports ∧
    rebalance cexConfigInvalid = some [RebalanceAction.decrease 1 200] ∧
    rebalance cexConfigInvalid ≠ some [] := by
  decide

/-- C4 (amended): when the retained reserve exceeds the pool total and the
validator list is nonempty, the planner completes without error and emits no
increase action; it may however emit decrease actions. -/
theorem config_invalid_no_increase (s : PoolSnapshot)
    (hn : s.validators.length ≠ 0)
    (hres : s.total_lamports < s.retained_reserve_lamports) :
    ∃ p, rebalance s = some p ∧
      ∀ vote x, RebalanceAction.increase vote x ∉ p := by
  refine ⟨_, by rw [rebalance, if_neg hn], ?_⟩
  intro vote x
  have htneg : lamports_per_validator s < 0 := by
    rw [lamports_per_validator_eq_ediv]
    apply Int.ediv_neg' _ (by exact_mod_cast Nat.pos_of_ne_zero hn)
    have h1 : usable_total s < 0 := by
      unfold usable_total
      omega
    have h2 : (0:Int) ≤ (num_increases s : Int) * (s.stake_rent_exemption : Int) :=
      mul_nonneg (Int.ofNat_nonneg _) (Int.ofNat_nonneg _)
    linarith
  exact increase_not_mem_of_neg_target _ _ htneg _ vote x

/-- Witness instantiating config_invalid_no_increase on witConfigInvalid. -/
theorem config_invalid_no_increase_witness :
    ∃ p, rebalance witConfigInvalid = some p ∧
      ∀ vote x, RebalanceAction.increase vote x ∉ p :=
  config_invalid_no_increase witConfigInvalid (by decide) (by decide)

/-- C5 (confirmed): busy-skip.  If every validator carrying a given vote
account address has nonzero transient stake, then no increase or decrease
action for that address appears in the emitted plan, whatever the active
balances are. -/
theorem busy_skip (s : PoolSnapshot) (p : List RebalanceAction)
    (hp : rebalance s = some p) (av : Nat)
    (hbusy : ∀ v, v ∈ s.validators → v.vote_account_address = av →
      v.transient_stake_lamports ≠ 0) :
    ∀ x : Int, RebalanceAction.increase av x ∉ p ∧ RebalanceAction.decrease av x ∉ p := by
  intro x
  by_cases hn : s.validators.length = 0
  · rw [rebalance, if_pos hn] at hp
    exact absurd hp (by simp)
  · rw [rebalance, if_neg hn, Option.some.injEq] at hp
    subst hp
    constructor
    · intro hx
      rcases List.mem_filterMap.mp hx with ⟨v, hv, hpv⟩
      rcases planValidator_eq_some.mp hpv with ⟨htr, ⟨h1, h2, ha⟩ | ⟨h1, h2, ha⟩⟩
      · exact absurd ha (by simp)
      · injection ha with hav hlam
        exact hbusy v hv hav.symm htr
    · intro hx
      rcases List.mem_filterMap.mp hx with ⟨v, hv, hpv⟩
      rcases planValidator_eq_some.mp hpv with ⟨htr, ⟨h1, h2, ha⟩ | ⟨h1, h2, ha⟩⟩
      · injection ha with hav hlam
        exact hbusy v hv hav.symm htr
      · exact absurd ha (by simp)

/-- Witness instantiating busy_skip on witBusy, whose emitted plan is one
increase of 19999997 lamports for validator 1; validator 42 is busy and no
action of 19999997 lamports targets it. -/
theorem busy_skip_witness :
    RebalanceAction.increase 42 19999997 ∉ [RebalanceAction.increase 1 19999997] ∧
    RebalanceAction.decrease 42 19999997 ∉ [RebalanceAction.increase 1 19999997] :=
  busy_skip witBusy [RebalanceAction.increase 1 19999997] (by decide) 42
    (by decide) 19999997

/-- C6 (confirmed): dust suppression.  Every decrease the planner emits
strictly exceeds the stake rent exemption and every increase it emits is at
least MINIMUM_INCREASE_LAMPORTS, so the below-threshold candidates are never
emitted. -/
theorem dust_suppression (s : PoolSnapshot) (p : List RebalanceAction)
    (hp : rebalance s = some p) :
    ∀ a ∈ p,
      (∀ vote x, a = RebalanceAction.decrease vote x →
        (s.stake_rent_exemption : Int) < x) ∧
      (∀ vote x, a = RebalanceAction.increase vote x →
        MINIMUM_INCREASE_LAMPORTS ≤ x) := by
  intro a ha
  by_cases hn : s.validators.length = 0
  · rw [rebalance, if_pos hn] at hp
    exact absurd hp (by simp)
  · rw [rebalance, if_neg hn, Option.some.injEq] at hp
    subst hp
    rcases List.mem_filterMap.mp ha with ⟨v, hv, hpv⟩
    rcases planValidator_eq_some.mp hpv with ⟨htr, ⟨h1, h2, ha2⟩ | ⟨h1, h2, ha2⟩⟩
    · subst ha2
      constructor
      · intro vote x hx
        injection hx with hav hlam
        omega
      · intro vote x hx
        exact absurd hx (by simp)
    · subst ha2
      constructor
      · intro vote x hx
        exact absurd hx (by simp)
      · intro vote x hx
        injection hx with hav hlam
        omega

/-- Witness instantiating dust_suppression on witDust at its emitted
increase action of 19999997 lamports. -/
theorem dust_suppression_witness :
    (∀ vote x, RebalanceAction.increase 1 19999997 = RebalanceAction.decrease vote x →
      (witDust.stake_rent_exemption : Int) < x) ∧
    (∀ vote x, RebalanceAction.increase 1 19999997 = RebalanceAction.increase vote x →
      MINIMUM_INCREASE_LAMPORTS ≤ x) :=
  dust_suppression witDust
    [RebalanceAction.increase 1 19999997, RebalanceAction.decrease 2 20000003]
    (by decide) (RebalanceAction.increase 1 19999997) (by decide)

/-- C7 (confirmed): convergence no-op.  On a snapshot with a nonempty
validator list in which every validator has zero transient stake and active
stake exactly floor((total_lamports - retained_reserve_lamports) / n), the
planner returns the empty action list. -/
theorem convergence_noop (s : PoolSnapshot) (hn : s.validators.length ≠ 0)
    (hall : ∀ v ∈ s.validators, v.transient_stake_lamports = 0 ∧
      (v.active_stake_lamports : Int) =
        Int.fdiv ((s.total_lamports : Int) - (s.retained_reserve_lamports : Int))
          (s.validators.length : Int)) :
    rebalance s = some [] := by
  have ht0 : ∀ v ∈ s.validators,
      (v.active_stake_lamports : Int) = provisional_lamports_per_validator s :=
    fun v hv => (hall v hv).2
  have hk : num_increases s = 0 := by
    unfold num_increases
    rw [List.countP_eq_zero]
    intro v hv
    unfold wants_increase
    simp [(hall v hv).1]
    rw [ht0 v hv]
  have htt : lamports_per_validator s = provisional_lamports_per_validator s := by
    unfold lamports_per_validator total_usable_lamports provisional_lamports_per_validator
    rw [hk]
    simp
  rw [rebalance, if_neg hn]
  refine congrArg some ?_
  rw [List.filterMap_eq_nil_iff]
  intro v hv
  obtain ⟨htr, hact⟩ := hall v hv
  have heq : (v.active_stake_lamports : Int) = lamports_per_validator s := by
    rw [htt]
    exact ht0 v hv
  unfold planValidator
  rw [if_neg (by simp [htr]), if_neg (by omega), if_neg (by omega)]

/-- Witness instantiating convergence_noop on witConvergence: two validators
already exactly at the target of 50 lamports. -/
theorem convergence_noop_witness : rebalance witConvergence = some [] :=
  convergence_noop witConvergence (by decide) (by decide)

/-- C8 (confirmed): Scenario A.  On three empty validators with pool total
300_000_000, no retained reserve and rent exemption 2_282_880, the planner
counts num_increases = 3, corrects the target to
(300_000_000 - 3 * 2_282_880) / 3 = 97_717_120, and emits exactly three
increase actions of 97_717_120 lamports and no decrease. -/
theorem scenario_a :
    num_increases scenarioA = 3 ∧
    lamports_per_validator scenarioA = 97717120 ∧
    rebalance scenarioA = some
      [RebalanceAction.increase 1 97717120,
       RebalanceAction.increase 2 97717120,
       RebalanceAction.increase 3 97717120] := by
  decide

/-- C9 (confirmed): correction monotonicity.  For a nonempty validator list
the corrected target never exceeds the provisional target. -/
theorem correction_monotonicity (s : PoolSnapshot) (hn : s.validators.length ≠ 0) :
    lamports_per_validator s ≤ provisional_lamports_per_validator s :=
  target_le_provisional s hn

/-- Witness instantiating correction_monotonicity on witMonotonicity. -/
theorem correction_monotonicity_witness :
    lamports_per_validator witMonotonicity ≤
      provisional_lamports_per_validator witMonotonicity :=
  correction_monotonicity witMonotonicity (by decide)

/-- C10 (confirmed): positive action amounts.  MINIMUM_INCREASE_LAMPORTS is
10_000_000; every emitted decrease strictly exceeds the (nonnegative) stake
rent exemption and is therefore positive, and every emitted increase is at
least MINIMUM_INCREASE_LAMPORTS and therefore positive: no zero-lamport
operation is ever submitted. -/
theorem positive_action_amounts (s : PoolSnapshot) (p : List RebalanceAction)
    (hp : rebalance s = some p) :
    MINIMUM_INCREASE_LAMPORTS = 10000000 ∧
    ∀ a ∈ p,
      (∀ vote x, a = RebalanceAction.decrease vote x →
        (s.stake_rent_exemption : Int) < x ∧ 0 < x) ∧
      (∀ vote x, a = RebalanceAction.increase vote x →
        MINIMUM_INCREASE_LAMPORTS ≤ x ∧ 0 < x) := by
  refine ⟨minimum_increase_eq, ?_⟩
  intro a ha
  by_cases hn : s.validators.length = 0
  · rw [rebalance, if_pos hn] at hp
    exact absurd hp (by simp)
  · rw [rebalance, if_neg hn, Option.some.injEq] at hp
    subst hp
    rcases List.mem_filterMap.mp ha with ⟨v, hv, hpv⟩
    rcases planValidator_eq_some.mp hpv with ⟨htr, ⟨h1, h2, ha2⟩ | ⟨h1, h2, ha2⟩⟩
    · subst ha2
      constructor
      · intro vote x hx
        injection hx with hav hlam
        have hrent : (0:Int) ≤ (s.stake_rent_exemption : Int) := Int.ofNat_nonneg _
        omega
      · intro vote x hx
        exact absurd hx (by simp)
    · subst ha2
      constructor
      · intro vote x hx
        exact absurd hx (by simp)
      · intro vote x hx
        injection hx with hav hlam
        have hmin : MINIMUM_INCREASE_LAMPORTS = 10000000 := minimum_increase_eq
        omega

/-- Witness instantiating positive_action_amounts on witPositive at its
emitted decrease action of 20000003 lamports. -/
theorem positive_action_amounts_witness :
    MINIMUM_INCREASE_LAMPORTS = 10000000 ∧
    ((∀ vote x, RebalanceAction.decrease 2 20000003 = RebalanceAction.decrease vote x →
        (witPositive.stake_rent_exemption : Int) < x ∧ 0 < x) ∧
     (∀ vote x, RebalanceAction.decrease 2 20000003 = RebalanceAction.increase vote x →
        MINIMUM_INCREASE_LAMPORTS ≤ x ∧ 0 < x)) :=
  ⟨(positive_action_amounts witPositive
      [RebalanceAction.increase 1 19999997, RebalanceAction.decrease 2 20000003]
      (by decide)).1,
   (positive_action_amounts witPositive
      [RebalanceAction.increase 1 19999997, RebalanceAction.decrease 2 20000003]
      (by decide)).2 (RebalanceAction.decrease 2 20000003) (by decide)⟩
